import Mathlib

/-
Shallow embedding of the repository's `ci_scripts/ci_tools.py`.

The module is a thin wrapper over Python's `configparser` (with
`configparser.ExtendedInterpolation` on Python 3), `os.environ` and
`subprocess`.  The embedding below models, faithfully to CPython's
documented and implemented semantics, exactly the behaviour the wrapper
relies on:

* a parsed configuration document is the state of a `ConfigParser` after a
  successful `read_file`: a `DEFAULT` section plus named sections, each an
  association list of string keys (stored lowercased by `optionxform`) to
  raw string values;
* `parser[section][parameter]` performs the section check of
  `RawConfigParser.__getitem__` (`KeyError(section)` when the section is
  neither `DEFAULT` nor present), the option check of
  `SectionProxy.__getitem__` (`KeyError(parameter)` when the option is
  absent from the section and from the `DEFAULT` fallback), and then
  `get`, which runs `ExtendedInterpolation.before_get` on the raw value;
* `ExtendedInterpolation._interpolate_some` is reproduced below in
  `interpolateSome`, including the `$$` escape, the `$\x7bkey\x7d` and
  `$\x7bsection:key\x7d` forms, the `MAX_INTERPOLATION_DEPTH` (10) check
  and the three interpolation error classes;
* `str.strip(c)` removes every leading and every trailing occurrence of
  the characters of `c`;
* `os.environ[name]` raises `KeyError(name)` when unset, assignment
  replaces only the named entry;
* `subprocess.run(command, shell=True, check=True)` raises
  `CalledProcessError` exactly when the command's exit status is nonzero,
  so a console command is modelled by its exit status.

The source branches on `sys.version_info`; the embedding fixes
`sys_version_info_major = 3` (the Python 2 `ConfigParser` import does not
even exist on a Python 3 interpreter) but keeps the dead branches'
structure where the source has them.

Python exceptions are modelled by `Except PyErr`.
-/

/-- The Python exceptions the embedded code can raise. -/
inductive PyErr where
  /-- `KeyError(key)`: raised by `parser[section]`, `parser[section][parameter]`
  and `os.environ[name]`. -/
  | keyError (key : String)
  /-- `InterpolationSyntaxError`: a `$` not followed by `$` or an open brace,
  or a malformed `$\x7b...\x7d` reference. -/
  | interpolationSyntaxError
  /-- `InterpolationMissingOptionError`: a `$\x7b...\x7d` reference to an
  option (or section) that does not exist. -/
  | interpolationMissingOptionError
  /-- `InterpolationDepthError`: interpolation nested deeper than
  `MAX_INTERPOLATION_DEPTH = 10`. -/
  | interpolationDepthError
  /-- `configparser.ParsingError` and friends raised by `read_file`. -/
  | parsingError
  /-- `subprocess.CalledProcessError(returncode)` raised by `subprocess.run`
  with `check=True`. -/
  | calledProcessError (returncode : Int)
deriving Repr, DecidableEq

/-- The state of a `configparser.ConfigParser` after a successful
`read_file`: the special `DEFAULT` section and the named sections, each an
association list from (lowercased) option names to raw (uninterpolated)
string values. -/
structure ConfigDoc where
  defaults : List (String × String)
  sections : List (String × List (String × String))
deriving Repr, DecidableEq

/-- `configparser.DEFAULTSECT`. -/
def DEFAULTSECT : String := "DEFAULT"

/-- `MAX_INTERPOLATION_DEPTH` from `configparser`. -/
def MAX_INTERPOLATION_DEPTH : Nat := 10

/-- `RawConfigParser.optionxform`: option names are lowercased, both when
stored and when looked up. -/
def optionxform (option : String) : String :=
  String.mk (option.data.map Char.toLower)

/-- The items of one named section (`None` when the section is absent). -/
def sectionItems (doc : ConfigDoc) (sect : String) : Option (List (String × String)) :=
  List.lookup sect doc.sections

/-- The lookup map `configparser` uses for a section: the section's own
items chained with the `DEFAULT` section (`_unify_values`); for the
`DEFAULT` section itself the section dictionary is empty. -/
def combinedItems (doc : ConfigDoc) (sect : String) : List (String × String) :=
  (if sect = DEFAULTSECT then [] else (sectionItems doc sect).getD []) ++ doc.defaults

/-- `parser.get(sect, opt, raw=True)` as used inside interpolation, with
`NoSectionError` / `NoOptionError` / `KeyError` collapsed to `none` (the
interpolation code catches all three and re-raises
`InterpolationMissingOptionError`). -/
def rawGetOpt (doc : ConfigDoc) (sect opt : String) : Option String :=
  if sect ≠ DEFAULTSECT ∧ sectionItems doc sect = none then none
  else List.lookup opt (combinedItems doc sect)

/-- Python's `str.split(sep)` for a one-character separator, on character
lists: `"a:b".split(":") = ["a", "b"]`, `"a".split(":") = ["a"]`,
`"".split(":") = [""]`. -/
def splitOnChar (sep : Char) : List Char → List (List Char)
  | [] => [[]]
  | c :: t =>
    if c = sep then
      [] :: splitOnChar sep t
    else
      match splitOnChar sep t with
      | [] => [[c]]
      | h :: r => (c :: h) :: r

/-- `ExtendedInterpolation._interpolate_some`.  `rest` is the text still to
be processed; the result is the concatenation the CPython code accumulates
in `accum`.  The regular expression `_KEYCRE` (a dollar sign followed by a
brace-delimited nonempty group of non-brace characters) is unfolded into
`takeWhile`/`dropWhile` scans.  For a single-name reference the lookup map
is the current section's combined items (which is what both the top-level
`d` of `get` and the nested `dict(parser.items(sect, raw=True))` amount
to); for a `section:key` reference it is a raw `get` against that section,
and the nested interpolation of the fetched value runs in that section. -/
def interpolateSome (doc : ConfigDoc) (sect : String) (rest : List Char) (depth : Nat) :
    Except PyErr (List Char) :=
  if hdep : depth > MAX_INTERPOLATION_DEPTH then .error .interpolationDepthError
  else
    match hr : rest.dropWhile (· != '$') with
    | [] => .ok rest
    | _ :: tail =>
      let pre := rest.takeWhile (· != '$')
      match tail with
      | [] => .error .interpolationSyntaxError
      | c :: t2 =>
        if c = '$' then
          match interpolateSome doc sect t2 depth with
          | .error e => .error e
          | .ok r => .ok (pre ++ '$' :: r)
        else if c = '{' then
          match hg : t2.dropWhile (· != '}') with
          | [] => .error .interpolationSyntaxError
          | _ :: rest3 =>
            let grp := t2.takeWhile (· != '}')
            if grp = [] then .error .interpolationSyntaxError
            else
              match splitOnChar ':' grp with
              | [p0] =>
                match List.lookup (optionxform (String.mk p0)) (combinedItems doc sect) with
                | none => .error .interpolationMissingOptionError
                | some v =>
                  if v.data.contains '$' then
                    match interpolateSome doc sect v.data (depth + 1) with
                    | .error e => .error e
                    | .ok r =>
                      match interpolateSome doc sect rest3 depth with
                      | .error e => .error e
                      | .ok r2 => .ok (pre ++ r ++ r2)
                  else
                    match interpolateSome doc sect rest3 depth with
                    | .error e => .error e
                    | .ok r2 => .ok (pre ++ v.data ++ r2)
              | [s0, p1] =>
                match rawGetOpt doc (String.mk s0) (optionxform (String.mk p1)) with
                | none => .error .interpolationMissingOptionError
                | some v =>
                  if v.data.contains '$' then
                    match interpolateSome doc (String.mk s0) v.data (depth + 1) with
                    | .error e => .error e
                    | .ok r =>
                      match interpolateSome doc sect rest3 depth with
                      | .error e => .error e
                      | .ok r2 => .ok (pre ++ r ++ r2)
                  else
                    match interpolateSome doc sect rest3 depth with
                    | .error e => .error e
                    | .ok r2 => .ok (pre ++ v.data ++ r2)
              | _ => .error .interpolationSyntaxError
        else .error .interpolationSyntaxError
termination_by (11 - depth, rest.length)
decreasing_by
  all_goals simp_wf
  all_goals
    first
      | exact Prod.Lex.left _ _ (by simp [MAX_INTERPOLATION_DEPTH] at hdep; omega)
      | (apply Prod.Lex.right
         first
           | (have h1 := (List.dropWhile_sublist (fun c => c != '$') (l := rest)).length_le
              rw [hr] at h1
              simp at h1
              omega)
           | (have h1 := (List.dropWhile_sublist (fun c => c != '$') (l := rest)).length_le
              rw [hr] at h1
              have h2 := (List.dropWhile_sublist (fun c => c != '}') (l := t2)).length_le
              rw [hg] at h2
              simp at h1 h2
              omega))

/-- `ExtendedInterpolation.before_get`: interpolate a raw value, starting
at depth 1. -/
def before_get (doc : ConfigDoc) (sect : String) (value : String) : Except PyErr String :=
  (interpolateSome doc sect value.data 1).map String.mk

/-- `parser[section][parameter]` on Python 3: `RawConfigParser.__getitem__`
raises `KeyError(section)` when the section is neither the `DEFAULT`
section nor present; `SectionProxy.__getitem__` raises
`KeyError(parameter)` when `has_option` fails (the option is absent from
the section items chained with the defaults), and otherwise returns
`parser.get(section, parameter)`, which interpolates the raw value. -/
def getItem (doc : ConfigDoc) (sect parameter : String) : Except PyErr String :=
  if sect ≠ DEFAULTSECT ∧ sectionItems doc sect = none then .error (.keyError sect)
  else
    match List.lookup (optionxform parameter) (combinedItems doc sect) with
    | none => .error (.keyError parameter)
    | some v => before_get doc sect v

/-- The Python major version the embedding runs under. -/
def sys_version_info_major : Nat := 3

/-- Python's `value.strip(c)` for the one-character set `c`: every leading
and every trailing occurrence of the character is removed. -/
def pyStrip (c : Char) (value : String) : String :=
  String.mk (((value.data.dropWhile (· == c)).reverse.dropWhile (· == c)).reverse)

/-- `_get_value(parser, section, parameter)`: fetch
`parser[section][parameter]` (Python 3 branch) and return
`value.strip(quote)`. -/
def _get_value (doc : ConfigDoc) (sect parameter : String) : Except PyErr String :=
  match (if sys_version_info_major = 3 then getItem doc sect parameter
         else getItem doc sect parameter) with
  | .error e => .error e
  | .ok value => .ok (pyStrip '"' value)

/-- `get_current_configuration_values(configuration_file)`: four `_get_value`
lookups against the `package` section, collected into one dict in insertion
order `name`, `version`, `description`, `homepage`.  The first exception
propagates; no partial dict escapes. -/
def get_current_configuration_values (doc : ConfigDoc) :
    Except PyErr (List (String × String)) := do
  let name ← _get_value doc "package" "name"
  let version ← _get_value doc "package" "version"
  let description ← _get_value doc "package" "description"
  let homepage ← _get_value doc "package" "homepage"
  return [("name", name), ("version", version),
          ("description", description), ("homepage", homepage)]

/-- `get_app_name(configuration_file)`: one lookup against the `DEFAULT`
section. -/
def get_app_name (doc : ConfigDoc) : Except PyErr String :=
  _get_value doc "DEFAULT" "app"

/-- The process environment, `os.environ`: a partial map from variable
names to values. -/
abbrev Env := String → Option String

/-- `get_environment_value(variable_name)`: `os.environ[variable_name]`,
raising `KeyError(variable_name)` when the variable is unset. -/
def get_environment_value (env : Env) (variable_name : String) : Except PyErr String :=
  match env variable_name with
  | some v => .ok v
  | none => .error (.keyError variable_name)

/-- `set_environment_value(variable_name, variable_value)`:
`os.environ[variable_name] = variable_value`. -/
def set_environment_value (env : Env) (variable_name variable_value : String) : Env :=
  fun m => if m = variable_name then some variable_value else env m

/-- Python 2 `subprocess.call(command, shell=True)`: waits for the
command and returns its exit status without checking it. -/
def subprocess_call (_returncode : Int) : Except PyErr Unit :=
  .ok ()

/-- Python 3 `subprocess.run(command, shell=True, check=check)`: raises
`CalledProcessError` exactly when `check` is set and the command's exit
status is nonzero.  A console command is modelled by its exit status. -/
def subprocess_run (returncode : Int) (check : Bool) : Except PyErr Unit :=
  if check ∧ returncode ≠ 0 then .error (.calledProcessError returncode)
  else .ok ()

/-- `run_console_command(command)`: the source's version branch, resolved
at `sys_version_info_major`. -/
def run_console_command (returncode : Int) : Except PyErr Unit :=
  if sys_version_info_major < 3 then subprocess_call returncode
  else subprocess_run returncode true

/-- The observable file-handle state of the process: the next handle the
OS will hand out and the handles currently open. -/
structure IOState where
  nextHandle : Nat
  openHandles : List Nat
deriving Repr, DecidableEq

/-- `open(configuration_file)` (the file exists): allocates a fresh handle
and records it open. -/
def pyOpenFile (s : IOState) : Nat × IOState :=
  (s.nextHandle, ⟨s.nextHandle + 1, s.nextHandle :: s.openHandles⟩)

/-- `parser.read_file(f)`: parses the opened file, raising
`configparser.ParsingError` on malformed input.  It does not close `f`. -/
def read_file (parseable : Bool) : Except PyErr Unit :=
  if parseable then .ok () else .error .parsingError

/-- `read_configuration(configuration_file)` up to the `yield`: build a
parser, `open` the file, `read_file` it.  The file is modelled by whether
it parses (`parseable`) and by the resulting document (`doc`).  Faithful to
the source, no path closes the handle opened by `open(...)`: there is no
`with open(...)`, no `try/finally`, and no `close()` anywhere in the
function, so the handle stays open in the returned state on success and on
parse failure alike. -/
def read_configuration (doc : ConfigDoc) (parseable : Bool) (s : IOState) :
    Except PyErr ConfigDoc × IOState :=
  let (_h, s') := pyOpenFile s
  match read_file parseable with
  | .error e => (.error e, s')
  | .ok _ => (.ok doc, s')

/-- Is an option visible in a section (its own items chained with the
`DEFAULT` fallback)?  This is `parser.has_option(sect, key)` for an
existing section. -/
def hasOption (doc : ConfigDoc) (sect key : String) : Bool :=
  (List.lookup (optionxform key) (combinedItems doc sect)).isSome

deriving instance DecidableEq for Except

/-- A document whose `package` section lacks `name` while the `DEFAULT`
section supplies it. -/
def exC2 : ConfigDoc := ⟨[("name", "x")], [("package", [])]⟩

/-- An entirely empty document. -/
def exEmpty : ConfigDoc := ⟨[], []⟩

/-- A document whose `package.name` holds the interpolation escape `$$`
and no quote character. -/
def exC3 : ConfigDoc := ⟨[], [("package", [("name", "$$")])]⟩

/-- A document with one unquoted and one quoted plain value. -/
def exC3A : ConfigDoc := ⟨[], [("package", [("name", "plain"), ("version", "\"wrapped\"")])]⟩

/-- A document whose `package.name` is present but refers, via
interpolation, to an option `x` that does not exist; `version`,
`description` and `homepage` are missing. -/
def exC8 : ConfigDoc := ⟨[], [("package", [("name", "${x}")])]⟩

/-- A document whose `package.name` is present and clean while `version`
is the first missing key. -/
def exC8A : ConfigDoc := ⟨[], [("package", [("name", "\"foo\"")])]⟩

/-- A conventional document: all four `package` keys present with quoted
values. -/
def exC1 : ConfigDoc :=
  ⟨[], [("package",
         [("name", "\"foo\""), ("version", "\"1.0\""),
          ("description", "\"d\""), ("homepage", "\"h\"")])]⟩

/-- Boundary-quote shapes: a value with an opening quote only, a value
wrapped in doubled quotes, and a value with an interior quote. -/
def exC9 : ConfigDoc :=
  ⟨[], [("package",
         [("name", "\"foo"), ("version", "\"\"foo\"\""),
          ("description", "\"a\"b\"")])]⟩

/-- An empty process environment. -/
def envEmpty : Env := fun _ => none

/-! ### Helper lemmas -/

theorem lookup_append_left {k : String} {l₁ l₂ : List (String × String)} {v : String}
    (h : List.lookup k l₁ = some v) : List.lookup k (l₁ ++ l₂) = some v := by
  induction l₁ with
  | nil => simp [List.lookup] at h
  | cons p t ih =>
    obtain ⟨a, b⟩ := p
    rw [List.cons_append, List.lookup_cons]
    rw [List.lookup_cons] at h
    cases hb : k == a with
    | true => rw [hb] at h; exact h
    | false => rw [hb] at h; exact ih h

theorem lookup_append_right {k : String} {l₁ l₂ : List (String × String)}
    (h : List.lookup k l₁ = none) : List.lookup k (l₁ ++ l₂) = List.lookup k l₂ := by
  induction l₁ with
  | nil => simp
  | cons p t ih =>
    obtain ⟨a, b⟩ := p
    rw [List.cons_append, List.lookup_cons]
    rw [List.lookup_cons] at h
    cases hb : k == a with
    | true => rw [hb] at h; simp at h
    | false => rw [hb] at h; exact ih h

theorem interpolateSome_no_dollar (doc : ConfigDoc) (sect : String) (l : List Char)
    (depth : Nat) (hd : depth ≤ MAX_INTERPOLATION_DEPTH) (h : ∀ c ∈ l, c ≠ '$') :
    interpolateSome doc sect l depth = .ok l := by
  have h1 : l.dropWhile (· != '$') = [] :=
    List.dropWhile_eq_nil_iff.mpr (by intro x hx; simpa using h x hx)
  rw [interpolateSome.eq_def]
  rw [dif_neg (by omega)]
  split
  · rfl
  · rename_i heq
    rw [h1] at heq
    exact absurd heq (by simp)

theorem before_get_no_dollar (doc : ConfigDoc) (sect : String) (value : String)
    (h : ∀ c ∈ value.data, c ≠ '$') : before_get doc sect value = .ok value := by
  rw [before_get, interpolateSome_no_dollar doc sect value.data 1 (by simp [MAX_INTERPOLATION_DEPTH]) h]
  rfl

theorem getItem_found (doc : ConfigDoc) (sect key v : String)
    (hsec : sect = DEFAULTSECT ∨ sectionItems doc sect ≠ none)
    (hv : List.lookup (optionxform key) (combinedItems doc sect) = some v) :
    getItem doc sect key = before_get doc sect v := by
  rw [getItem, if_neg (by rcases hsec with h | h <;> simp [h]), hv]

theorem _get_value_eq (doc : ConfigDoc) (sect key v : String)
    (hsec : sect = DEFAULTSECT ∨ sectionItems doc sect ≠ none)
    (hv : List.lookup (optionxform key) (combinedItems doc sect) = some v)
    (hnd : ∀ c ∈ v.data, c ≠ '$') :
    _get_value doc sect key = .ok (pyStrip '"' v) := by
  rw [_get_value, ite_self, getItem_found doc sect key v hsec hv,
    before_get_no_dollar doc sect v hnd]

theorem dropWhile_beq_replicate (q : Char) (a : Nat) (l : List Char) :
    List.dropWhile (· == q) (List.replicate a q ++ l) = List.dropWhile (· == q) l := by
  induction a with
  | zero => simp
  | succ n ih => rw [List.replicate_succ, List.cons_append, List.dropWhile_cons]; simp [ih]

theorem dropWhile_beq_replicate_self (q : Char) (b : Nat) :
    List.dropWhile (· == q) (List.replicate b q) = [] := by
  induction b with
  | zero => rfl
  | succ n ih => rw [List.replicate_succ, List.dropWhile_cons]; simp [ih]

theorem dropWhile_beq_of_head_ne (q : Char) (l : List Char) (h : l.head? ≠ some q) :
    List.dropWhile (· == q) l = l := by
  cases l with
  | nil => rfl
  | cons c t =>
    rw [List.dropWhile_cons]
    have hc : ¬(c = q) := by intro hc; exact h (by simp [hc])
    simp [hc]

theorem stripList_boundary (a b : Nat) (mid : List Char)
    (h1 : mid.head? ≠ some '"') (h2 : mid.getLast? ≠ some '"') :
    ((List.replicate a '"' ++ mid ++ List.replicate b '"').dropWhile
      (· == '"')).reverse.dropWhile (· == '"') = mid.reverse := by
  rw [List.append_assoc, dropWhile_beq_replicate]
  cases hm : mid with
  | nil => simp [dropWhile_beq_replicate_self]
  | cons c t =>
    have hc : c ≠ '"' := by
      intro hcq
      exact h1 (by simp [hm, hcq])
    have hh : ((c :: t) ++ List.replicate b '"').head? = some c := by
      rw [List.cons_append]
      rfl
    rw [dropWhile_beq_of_head_ne '"' ((c :: t) ++ List.replicate b '"')
      (by rw [hh]; simp [hc])]
    rw [List.reverse_append, List.reverse_replicate, dropWhile_beq_replicate]
    rw [dropWhile_beq_of_head_ne '"' (c :: t).reverse
      (by rw [List.head?_reverse]; rw [hm] at h2; exact h2)]

theorem pyStrip_boundary (a b : Nat) (mid : List Char)
    (h1 : mid.head? ≠ some '"') (h2 : mid.getLast? ≠ some '"') :
    pyStrip '"' (String.mk (List.replicate a '"' ++ mid ++ List.replicate b '"'))
      = String.mk mid := by
  rw [pyStrip]
  have hd : (String.mk (List.replicate a '"' ++ mid ++ List.replicate b '"')).data
      = List.replicate a '"' ++ mid ++ List.replicate b '"' := rfl
  rw [hd, stripList_boundary a b mid h1 h2, List.reverse_reverse]

theorem pyStrip_no_quote (s : String) (h : ∀ c ∈ s.data, c ≠ '"') : pyStrip '"' s = s := by
  rw [pyStrip]
  have h1 : s.data.head? ≠ some '"' := by
    cases hd : s.data with
    | nil => simp
    | cons c t => simpa using h c (by rw [hd]; exact List.mem_cons_self c t)
  rw [dropWhile_beq_of_head_ne _ _ h1]
  have h2 : s.data.reverse.head? ≠ some '"' := by
    rw [List.head?_reverse]
    cases hg : s.data.getLast? with
    | none => simp
    | some c =>
      simpa using h c (List.mem_of_mem_getLast? hg)
  rw [dropWhile_beq_of_head_ne _ _ h2, List.reverse_reverse]

/-! ### Claim C4 -/

/-- Claim C4 (refuted by the code; the spec states the intent): the
embedded `read_configuration` never closes the handle allocated by
`open(configuration_file)`.  On every path — successful parse and
`ParsingError` alike — the returned state still lists the new handle as
open, because the source calls `open(...)` without a `with` block,
`try/finally`, or `close()`. -/
theorem read_configuration_never_releases (doc : ConfigDoc) (parseable : Bool) (s : IOState) :
    ((read_configuration doc parseable s).2).openHandles = s.nextHandle :: s.openHandles ∧
    (read_configuration doc parseable s).1
      = (if parseable then .ok doc else .error .parsingError) := by
  cases parseable <;> simp [read_configuration, pyOpenFile, read_file]

/-! ### Claim C5 -/

/-- Claim C5: `run_console_command` on a command that exits with status 0
returns normally; on a command that exits with a nonzero status it raises
`CalledProcessError` (via `subprocess.run(..., check=True)`). -/
theorem run_console_command_exit_status (returncode : Int) :
    (returncode = 0 → run_console_command returncode = .ok ()) ∧
    (returncode ≠ 0 →
      run_console_command returncode = .error (.calledProcessError returncode)) := by
  constructor
  · intro h
    simp [run_console_command, sys_version_info_major, subprocess_run, h]
  · intro h
    simp [run_console_command, sys_version_info_major, subprocess_run, h]

/-- Witness for claim C5 at exit statuses 0 and 1. -/
theorem run_console_command_exit_status_witness :
    ((0 : Int) = 0 ∧ run_console_command 0 = .ok ()) ∧
    ((1 : Int) ≠ 0 ∧ run_console_command 1 = .error (.calledProcessError 1)) :=
  ⟨⟨rfl, (run_console_command_exit_status 0).1 rfl⟩,
   ⟨by decide, (run_console_command_exit_status 1).2 (by decide)⟩⟩

/-! ### Claim C6 -/

/-- Claim C6: setting an environment variable and immediately getting it
by the same name returns exactly the value just set. -/
theorem set_then_get_roundtrip (env : Env) (variable_name variable_value : String) :
    get_environment_value (set_environment_value env variable_name variable_value)
      variable_name = .ok variable_value := by
  simp [get_environment_value, set_environment_value]

/-! ### Claim C7 -/

/-- Claim C7: getting an environment variable that is unset raises
`KeyError` with the variable's name; no value is returned. -/
theorem get_environment_value_unset (env : Env) (variable_name : String)
    (h : env variable_name = none) :
    get_environment_value env variable_name = .error (.keyError variable_name) := by
  simp [get_environment_value, h]

/-- Witness for claim C7 on the empty environment. -/
theorem get_environment_value_unset_witness :
    envEmpty "GITHUB_TOKEN" = none ∧
    get_environment_value envEmpty "GITHUB_TOKEN" = .error (.keyError "GITHUB_TOKEN") :=
  ⟨rfl, get_environment_value_unset envEmpty "GITHUB_TOKEN" rfl⟩

/-! ### Claim C10 -/

/-- Claim C10: `set_environment_value` changes only the entry it names;
every other variable's presence and value is unchanged. -/
theorem set_environment_value_frame (env : Env) (variable_name variable_value m : String)
    (h : m ≠ variable_name) :
    set_environment_value env variable_name variable_value m = env m := by
  simp [set_environment_value, h]

/-- Witness for claim C10: setting `GITHUB_TOKEN` leaves `PATH` untouched. -/
theorem set_environment_value_frame_witness :
    ("PATH" : String) ≠ "GITHUB_TOKEN" ∧
    set_environment_value envEmpty "GITHUB_TOKEN" "token" "PATH" = envEmpty "PATH" :=
  ⟨by decide,
   set_environment_value_frame envEmpty "GITHUB_TOKEN" "token" "PATH" (by decide)⟩

/-! ### Claim C1 -/

/-- Claim C1: for every document whose `package` section stores
`name="foo"`, `version="1.0"`, `description="d"`, `homepage="h"` (the raw
values keep the quotes the configuration file carries),
`get_current_configuration_values` returns exactly the four-entry mapping
with the quotes stripped. -/
theorem gccv_package_summary (doc : ConfigDoc) (sec : List (String × String))
    (hsec : sectionItems doc "package" = some sec)
    (hn : List.lookup "name" sec = some "\"foo\"")
    (hv : List.lookup "version" sec = some "\"1.0\"")
    (hd : List.lookup "description" sec = some "\"d\"")
    (hh : List.lookup "homepage" sec = some "\"h\"") :
    get_current_configuration_values doc =
      .ok [("name", "foo"), ("version", "1.0"),
           ("description", "d"), ("homepage", "h")] := by
  have hcomb : combinedItems doc "package" = sec ++ doc.defaults := by
    rw [combinedItems, if_neg (by decide), hsec]
    rfl
  have hne : sectionItems doc "package" ≠ none := by rw [hsec]; simp
  have e1 : _get_value doc "package" "name" = .ok "foo" := by
    rw [_get_value_eq doc "package" "name" "\"foo\"" (Or.inr hne)
      (by rw [show optionxform "name" = "name" from by decide, hcomb]
          exact lookup_append_left hn)
      (by decide)]
    decide
  have e2 : _get_value doc "package" "version" = .ok "1.0" := by
    rw [_get_value_eq doc "package" "version" "\"1.0\"" (Or.inr hne)
      (by rw [show optionxform "version" = "version" from by decide, hcomb]
          exact lookup_append_left hv)
      (by decide)]
    decide
  have e3 : _get_value doc "package" "description" = .ok "d" := by
    rw [_get_value_eq doc "package" "description" "\"d\"" (Or.inr hne)
      (by rw [show optionxform "description" = "description" from by decide, hcomb]
          exact lookup_append_left hd)
      (by decide)]
    decide
  have e4 : _get_value doc "package" "homepage" = .ok "h" := by
    rw [_get_value_eq doc "package" "homepage" "\"h\"" (Or.inr hne)
      (by rw [show optionxform "homepage" = "homepage" from by decide, hcomb]
          exact lookup_append_left hh)
      (by decide)]
    decide
  simp only [get_current_configuration_values, e1, e2, e3, e4]
  rfl

/-- Witness for claim C1 on a concrete document. -/
theorem gccv_package_summary_witness :
    sectionItems exC1 "package" =
      some [("name", "\"foo\""), ("version", "\"1.0\""),
            ("description", "\"d\""), ("homepage", "\"h\"")] ∧
    get_current_configuration_values exC1 =
      .ok [("name", "foo"), ("version", "1.0"),
           ("description", "d"), ("homepage", "h")] :=
  ⟨by decide,
   gccv_package_summary exC1
     [("name", "\"foo\""), ("version", "\"1.0\""),
      ("description", "\"d\""), ("homepage", "\"h\"")]
     (by decide) (by decide) (by decide) (by decide) (by decide)⟩

/-! ### Claim C9 -/

/-- Claim C9: the lookup strips every leading and every trailing
double-quote character of a value (Python's `strip` semantics), not just
one wrapping pair, while interior quotes are preserved: a value of shape
`quote^a ++ mid ++ quote^b` whose core `mid` has no boundary quote (and no
interpolation placeholder) is returned exactly as `mid`. -/
theorem get_value_strips_all_boundary_quotes (doc : ConfigDoc) (sect key : String)
    (a b : Nat) (mid : List Char)
    (hsec : sect = DEFAULTSECT ∨ sectionItems doc sect ≠ none)
    (hv : List.lookup (optionxform key) (combinedItems doc sect)
        = some (String.mk (List.replicate a '"' ++ mid ++ List.replicate b '"')))
    (hnd : ∀ c ∈ mid, c ≠ '$')
    (h1 : mid.head? ≠ some '"') (h2 : mid.getLast? ≠ some '"') :
    _get_value doc sect key = .ok (String.mk mid) := by
  have hnd' : ∀ c ∈ (String.mk (List.replicate a '"' ++ mid ++ List.replicate b '"')).data,
      c ≠ '$' := by
    intro c hc
    have hc' : c ∈ List.replicate a '"' ++ mid ++ List.replicate b '"' := hc
    rcases List.mem_append.mp hc' with h | h
    · rcases List.mem_append.mp h with h' | h'
      · rw [List.eq_of_mem_replicate h']; decide
      · exact hnd c h'
    · rw [List.eq_of_mem_replicate h]; decide
  rw [_get_value_eq doc sect key _ hsec hv hnd', pyStrip_boundary a b mid h1 h2]

/-- Witness for claim C9: an unbalanced opening quote, doubled wrapping
quotes, and an interior quote, all on one document. -/
theorem get_value_strips_all_boundary_quotes_witness :
    _get_value exC9 "package" "name" = .ok "foo" ∧
    _get_value exC9 "package" "version" = .ok "foo" ∧
    _get_value exC9 "package" "description" = .ok "a\"b" :=
  ⟨get_value_strips_all_boundary_quotes exC9 "package" "name" 1 0 "foo".data
     (Or.inr (by decide)) (by decide) (by decide) (by decide) (by decide),
   get_value_strips_all_boundary_quotes exC9 "package" "version" 2 2 "foo".data
     (Or.inr (by decide)) (by decide) (by decide) (by decide) (by decide),
   get_value_strips_all_boundary_quotes exC9 "package" "description" 1 1 "a\"b".data
     (Or.inr (by decide)) (by decide) (by decide) (by decide) (by decide)⟩

/-! ### Claim C2 -/

/-- Claim C2 is false as stated: in `exC2` the key `name` is absent from
the `package` section, yet the lookup does not fail — the `DEFAULT`
section of the same document supplies the value `x` through
`configparser`'s default-section fallback. -/
theorem get_value_default_fallback_counterexample :
    List.lookup (optionxform "name") ((sectionItems exC2 "package").getD []) = none ∧
    _get_value exC2 "package" "name" = .ok "x" := by
  constructor
  · decide
  · rw [_get_value_eq exC2 "package" "name" "x" (Or.inr (by decide)) (by decide) (by decide)]
    decide

/-- Claim C2 as amended: a key visible neither in the specified section
nor in the `DEFAULT` section makes the lookup fail with a `KeyError`
(naming the missing section or the missing key) — it never silently
returns an empty string; keys of the `DEFAULT` section do act as fallback
values for every section. -/
theorem get_value_missing_key_fails (doc : ConfigDoc) (sect key : String)
    (h : List.lookup (optionxform key) (combinedItems doc sect) = none) :
    ∃ k, _get_value doc sect key = .error (.keyError k) := by
  simp only [_get_value, ite_self, getItem]
  by_cases hs : sect ≠ DEFAULTSECT ∧ sectionItems doc sect = none
  · rw [if_pos hs]
    exact ⟨sect, rfl⟩
  · rw [if_neg hs, h]
    exact ⟨key, rfl⟩

/-- Witness for the amended claim C2 on the empty document. -/
theorem get_value_missing_key_fails_witness :
    List.lookup (optionxform "name") (combinedItems exEmpty "package") = none ∧
    ∃ k, _get_value exEmpty "package" "name" = .error (.keyError k) :=
  ⟨by decide, get_value_missing_key_fails exEmpty "package" "name" (by decide)⟩

/-! ### Claim C3 -/

/-- Claim C3 is false as stated: the stored value `$$` of `exC3` contains
no quote character, yet it is not returned unchanged — interpolation
(which runs before the quote stripping) collapses the `$$` escape to a
single `$`. -/
theorem get_value_unquoted_counterexample :
    (∀ c ∈ ("$$" : String).data, c ≠ '"') ∧
    _get_value exC3 "package" "name" = .ok "$" ∧ ("$" : String) ≠ "$$" := by
  refine ⟨by decide, ?_, by decide⟩
  have hi : interpolateSome exC3 "package" ['$', '$'] 1 = .ok ['$'] := by
    rw [interpolateSome.eq_def]
    show (match interpolateSome exC3 "package" ([] : List Char) 1 with
          | Except.error e => Except.error e
          | Except.ok r => Except.ok ('$' :: r)) = Except.ok ['$']
    rw [interpolateSome_no_dollar exC3 "package" [] 1 (by decide) (by simp)]
  simp only [_get_value, ite_self, getItem]
  rw [show List.lookup (optionxform "name") (combinedItems exC3 "package") = some "$$"
    from by decide]
  show (match before_get exC3 "package" "$$" with
        | Except.error e => Except.error e
        | Except.ok value => Except.ok (pyStrip '"' value)) = Except.ok "$"
  rw [before_get, show ("$$" : String).data = ['$', '$'] from rfl, hi]
  decide

/-- Claim C3 as amended: for stored values free of the interpolation
placeholder character `$` (so `before_get` is the identity on them), a
value with no quote character is returned unchanged, and a value wrapped
in one pair of double quotes whose interior carries no boundary quote is
returned as that interior. -/
theorem get_value_quote_stripping (doc : ConfigDoc) (sect key v : String)
    (hsec : sect = DEFAULTSECT ∨ sectionItems doc sect ≠ none)
    (hv : List.lookup (optionxform key) (combinedItems doc sect) = some v)
    (hnd : ∀ c ∈ v.data, c ≠ '$') :
    ((∀ c ∈ v.data, c ≠ '"') → _get_value doc sect key = .ok v) ∧
    (∀ mid : List Char, v.data = '"' :: (mid ++ ['"']) →
      mid.head? ≠ some '"' → mid.getLast? ≠ some '"' →
      _get_value doc sect key = .ok (String.mk mid)) := by
  constructor
  · intro hq
    rw [_get_value_eq doc sect key v hsec hv hnd, pyStrip_no_quote v hq]
  · intro mid hsh h1 h2
    rw [_get_value_eq doc sect key v hsec hv hnd]
    have hv' : v = String.mk (List.replicate 1 '"' ++ mid ++ List.replicate 1 '"') := by
      calc v = String.mk v.data := rfl
        _ = _ := by rw [hsh]; simp
    rw [hv', pyStrip_boundary 1 1 mid h1 h2]

/-- Witness for the amended claim C3: one plain and one quote-wrapped
value. -/
theorem get_value_quote_stripping_witness :
    _get_value exC3A "package" "name" = .ok "plain" ∧
    _get_value exC3A "package" "version" = .ok "wrapped" :=
  ⟨(get_value_quote_stripping exC3A "package" "name" "plain"
      (Or.inr (by decide)) (by decide) (by decide)).1 (by decide),
   (get_value_quote_stripping exC3A "package" "version" "\"wrapped\""
      (Or.inr (by decide)) (by decide) (by decide)).2
     "wrapped".data (by decide) (by decide) (by decide)⟩

/-! ### Claim C8 -/

/-- Claim C8 is false as stated: in `exC8` the first missing key of the
four is `version` (`name` is present), yet `get_current_configuration_values`
does not fail on `version` — it fails already while interpolating the
present key `name`, whose value references the nonexistent option `x`, and
surfaces `InterpolationMissingOptionError` rather than the missing key's
`KeyError`. -/
theorem gccv_first_missing_counterexample :
    hasOption exC8 "package" "name" = true ∧
    hasOption exC8 "package" "version" = false ∧
    get_current_configuration_values exC8 = .error .interpolationMissingOptionError ∧
    get_current_configuration_values exC8 ≠ .error (.keyError "version") := by
  have hi : interpolateSome exC8 "package" ['$', '{', 'x', '}'] 1
      = .error .interpolationMissingOptionError := by
    rw [interpolateSome.eq_def]
    decide
  have hgv : _get_value exC8 "package" "name" = .error .interpolationMissingOptionError := by
    simp only [_get_value, ite_self, getItem]
    rw [show List.lookup (optionxform "name") (combinedItems exC8 "package") = some "${x}"
      from by decide]
    show (match before_get exC8 "package" "${x}" with
          | Except.error e => Except.error e
          | Except.ok value => Except.ok (pyStrip '"' value))
        = .error .interpolationMissingOptionError
    rw [before_get, show ("${x}" : String).data = ['$', '{', 'x', '}'] from rfl, hi]
    rfl
  have hg : get_current_configuration_values exC8 = .error .interpolationMissingOptionError := by
    simp only [get_current_configuration_values, hgv]
    rfl
  exact ⟨by decide, by decide, hg, by rw [hg]; decide⟩

/-- Claim C8 as amended: when the `package` section exists and the
lookups of the keys preceding the first missing key succeed (in
particular, their interpolation does not itself fail),
`get_current_configuration_values` fails with the `KeyError` of the first
missing key in the fixed order `name`, `version`, `description`,
`homepage`, and — the result being an error — no partial mapping reaches
the caller. -/
theorem gccv_fails_on_first_missing_key (doc : ConfigDoc)
    (hsec : sectionItems doc "package" ≠ none) :
    (hasOption doc "package" "name" = false →
      get_current_configuration_values doc = .error (.keyError "name")) ∧
    (∀ s, _get_value doc "package" "name" = .ok s →
      hasOption doc "package" "version" = false →
      get_current_configuration_values doc = .error (.keyError "version")) ∧
    (∀ s t, _get_value doc "package" "name" = .ok s →
      _get_value doc "package" "version" = .ok t →
      hasOption doc "package" "description" = false →
      get_current_configuration_values doc = .error (.keyError "description")) ∧
    (∀ s t u, _get_value doc "package" "name" = .ok s →
      _get_value doc "package" "version" = .ok t →
      _get_value doc "package" "description" = .ok u →
      hasOption doc "package" "homepage" = false →
      get_current_configuration_values doc = .error (.keyError "homepage")) := by
  have missing : ∀ key : String, hasOption doc "package" key = false →
      _get_value doc "package" key = .error (.keyError key) := by
    intro key hk
    have hl : List.lookup (optionxform key) (combinedItems doc "package") = none := by
      rw [hasOption] at hk
      exact Option.not_isSome_iff_eq_none.mp (by simp [hk])
    simp only [_get_value, ite_self, getItem]
    rw [if_neg (by simp [hsec]), hl]
  refine ⟨?_, ?_, ?_, ?_⟩
  · intro h
    simp only [get_current_configuration_values, missing "name" h]
    rfl
  · intro s hs h
    simp only [get_current_configuration_values, hs, missing "version" h]
    rfl
  · intro s t hs ht h
    simp only [get_current_configuration_values, hs, ht, missing "description" h]
    rfl
  · intro s t u hs ht hu h
    simp only [get_current_configuration_values, hs, ht, hu, missing "homepage" h]
    rfl

/-- Witness for the amended claim C8: `name` resolves cleanly, `version`
is the first missing key, and the whole read fails with its `KeyError`. -/
theorem gccv_fails_on_first_missing_key_witness :
    _get_value exC8A "package" "name" = .ok "foo" ∧
    hasOption exC8A "package" "version" = false ∧
    get_current_configuration_values exC8A = .error (.keyError "version") := by
  have h1 : _get_value exC8A "package" "name" = .ok "foo" := by
    rw [_get_value_eq exC8A "package" "name" "\"foo\""
      (Or.inr (by decide)) (by decide) (by decide)]
    decide
  exact ⟨h1, by decide,
    (gccv_fails_on_first_missing_key exC8A (by decide)).2.1 "foo" h1 (by decide)⟩
